import Mathlib

/-!
Shallow embedding of `faust/serializers/registry.py` (the serialization
dispatch layer of the repository) and proofs about its claims.

The registry's own code is embedded function by function.  Its external
collaborators (the stateless codec table `loads`/`dumps` from `.codecs`,
the model type system, `want_bytes`, and the async external serializer
classes reachable through `symbol_by_name`) are not part of `src/`; they
are modelled from the spec, mostly as parameters (`Deps`) so that the
theorems quantify over their behaviour.

Python `None`, byte strings, dicts and model instances are embedded as the
inductive `Val`.  Exceptions are the inductive `PyError`; a Python function
that can raise returns `Except PyError _`.  The mutable override cache of a
`Registry` is threaded explicitly: each stateful operation returns its
result together with the registry state after the call.
-/

/-- A codec argument (`CodecArg` in the source): `None`, a codec name
string, or an inline codec object (the non-string case that
`_get_serializer` rejects). -/
inductive CodecArg where
  | none
  | str (s : String)
  | codec (c : Nat)
deriving DecidableEq, Repr

/-- Python truthiness of a `CodecArg`: `None` and the empty string are
falsy, everything else is truthy. -/
def CodecArg.truthy : CodecArg → Bool
  | CodecArg.none => false
  | CodecArg.str s => !(s == "")
  | CodecArg.codec _ => true

/-- Python `a or b` on codec arguments. -/
def codecOr (a b : CodecArg) : CodecArg :=
  if a.truthy then a else b

/-- Embedded Python exception values.  `keyError` is the lookup-miss
signal used for control flow by `_get_serializer`; `codecError` stands for
whatever the stateless codec table raises; `modelError` for a model
construction failure; `attributeError` for attribute access on `None`. -/
inductive PyError where
  | keyError (arg : CodecArg)
  | attributeError (msg : String)
  | codecError (msg : String)
  | modelError (msg : String)
  | keyDecodeError (msg : String)
  | valueDecodeError (msg : String)
deriving DecidableEq, Repr

/-- Python `str(exc)`: the description carried by an exception. -/
def pyStr : PyError → String
  | PyError.keyError _ => "KeyError"
  | PyError.attributeError m => m
  | PyError.codecError m => m
  | PyError.modelError m => m
  | PyError.keyDecodeError m => m
  | PyError.valueDecodeError m => m

/-- A cached external serializer instance (`AsyncSerializerT`).  `uid` is
the construction token: each construction by the registry uses a fresh
`uid`, so `uid` equality is reference equality of instances. -/
structure AsyncSer where
  name : String
  uid : Nat
deriving DecidableEq, Repr

/-- Embedded runtime values: Python `None`, raw bytes, an untyped dict,
or a model instance.  A model instance carries the serializer its type
declares, its payload, and the optional request context attached at
decode time (`typ(obj, req=request)`). -/
inductive Val where
  | vnone
  | vbytes (b : String)
  | vdict (d : List (String × Nat))
  | vmodel (serializer : CodecArg) (payload : Val) (req : Option Nat)
deriving DecidableEq, Repr

/-- Whether a value has Model capability (`isinstance(x, ModelT)`). -/
def Val.isModel : Val → Bool
  | Val.vmodel _ _ _ => true
  | _ => false

/-- A model type (`typ` argument of the decode path): its declared
serializer (`typ._options.serializer`) and its construction behaviour.
`fails_on x = some e` means the Python constructor `typ(x)` raises `e`. -/
structure ModelType where
  serializer : CodecArg
  fails_on : Val → Option PyError

/-- Construction of a model instance, `typ(x)` or `typ(x, req=request)`:
the instance records its type's declared serializer, the payload, and the
request context when one is given. -/
def ModelType.construct (t : ModelType) (x : Val) (req : Option Nat) :
    Except PyError Val :=
  match t.fails_on x with
  | some e => Except.error e
  | Option.none => Except.ok (Val.vmodel t.serializer x req)

/-- Message envelope; only its optional raw value payload is consumed by
the registry (`message.value`). -/
structure Message where
  value : Val
deriving DecidableEq, Repr

/-- External collaborators of the registry, none of which live in the
repository slice: the stateless codec table (`loads` / `dumps` from
`.codecs`), the model self-encoding, and the behaviour of constructed
external serializer instances.  Modelled from the spec: the codec table is
a name-indexed `bytes ↔ value` transform for which an unknown name is an
error; a model's `dumps()` produces bytes from its declared serializer and
payload and is total (`selfEncode() -> bytes`); external serializer
instances expose async decode/encode operations. -/
structure Deps where
  codec_loads : CodecArg → Val → Except PyError Val
  codec_dumps : CodecArg → Val → Except PyError Val
  self_encode : CodecArg → Val → Val
  ser_loads : AsyncSer → Val → Except PyError Val
  ser_dumps_key : AsyncSer → String → Val → Except PyError Val
  ser_dumps_value : AsyncSer → String → Val → Except PyError Val

/-- Modelled from the spec: the model's canonical self-serialization
`value.dumps()` (the `Model` class is not in the repository slice).  Per
the spec a model instance declares "which serializer produced it" and
exposes a total raw-bytes self-serialization fallback; we model it as the
`Deps.self_encode` transform applied to the declared serializer and the
payload. -/
def modelDumps (d : Deps) : Val → Except PyError Val
  | Val.vmodel s p _ => Except.ok (d.self_encode s p)
  | v => Except.error (PyError.attributeError (toString (repr v)))

/-- Modelled from the spec: `want_bytes` from `utils.compat` (not in the
repository slice) coerces a key to its raw byte representation; keys are
assumed to already be bytes-like, on which it is the identity. -/
def want_bytes : Val → Val
  | v => v

/-- The fixed table of external-serializer constructors
(`Registry.override_classes`): reserved name to symbol path. -/
def override_classes : List (String × String) :=
  [("avro", "faust.serializers.avro.faust:AvroSerializer")]

/-- Association-list lookup used for both the constructor table and the
override cache (Python dict `[]` access, `KeyError` as `Option.none`). -/
def lookupStr {β : Type} (s : String) : List (String × β) → Option β
  | [] => Option.none
  | (k, v) :: rest => if k = s then some v else lookupStr s rest

/-- Registry state: the two configured defaults (immutable after
construction) and the mutable override cache, plus the construction
counter that mints `uid`s for new external serializer instances. -/
structure Registry where
  key_serializer : CodecArg
  value_serializer : CodecArg
  _override : List (String × AsyncSer)
  next_uid : Nat
deriving DecidableEq, Repr

/-- `Registry.__init__`: empty override cache. -/
def Registry.init (ks : CodecArg) (vs : CodecArg) : Registry :=
  { key_serializer := ks, value_serializer := vs
  , _override := [], next_uid := 0 }

/-- `Registry._get_serializer(name)`: reject non-strings with `KeyError`;
on a cache hit return the cached instance; on a cache miss look the name
up in `override_classes` (a miss there raises `KeyError` before any cache
write), construct a fresh instance with the registry as context, insert it
into the cache and return it.  The error case leaves the state unchanged;
the pair's second component is the registry state after the call. -/
def Registry._get_serializer (r : Registry) (name : CodecArg) :
    Except PyError AsyncSer × Registry :=
  match name with
  | CodecArg.str s =>
    match lookupStr s r._override with
    | some ser => (Except.ok ser, r)
    | Option.none =>
      match lookupStr s override_classes with
      | Option.none => (Except.error (PyError.keyError name), r)
      | some _ =>
        let ser : AsyncSer := ⟨s, r.next_uid⟩
        (Except.ok ser,
         { r with _override := (s, ser) :: r._override
                , next_uid := r.next_uid + 1 })
  | _ => (Except.error (PyError.keyError name), r)

/-- The `except Exception` wrapper of `loads_key`: any failure is
re-raised as `KeyDecodeError(str(exc))`. -/
def wrapKey : Except PyError Val → Except PyError Val
  | Except.error e => Except.error (PyError.keyDecodeError (pyStr e))
  | Except.ok v => Except.ok v

/-- The `except Exception` wrapper of `loads_value`: any failure is
re-raised as `ValueDecodeError(str(exc))`. -/
def wrapValue : Except PyError Val → Except PyError Val
  | Except.error e => Except.error (PyError.valueDecodeError (pyStr e))
  | Except.ok v => Except.ok v

/-- `Registry.loads_key(typ, key)`: passthrough when the key or the type
is absent; otherwise resolve the effective serializer name (type-declared
`or` registry default), try the external serializer, fall back to the
stateless codec table on `KeyError`, construct `typ(obj)`, and wrap any
failure as `KeyDecodeError`. -/
def Registry.loads_key (d : Deps) (r : Registry)
    (typ : Option ModelType) (key : Val) :
    Except PyError Val × Registry :=
  match key, typ with
  | Val.vnone, _ => (Except.ok Val.vnone, r)
  | k, Option.none => (Except.ok k, r)
  | k, some t =>
    let serializer := codecOr t.serializer r.key_serializer
    match r._get_serializer serializer with
    | (Except.error _, r') =>
      (wrapKey (d.codec_loads serializer k >>=
         fun obj => t.construct obj Option.none), r')
    | (Except.ok ser, r') =>
      (wrapKey (d.ser_loads ser k >>=
         fun obj => t.construct obj Option.none), r')

/-- `Registry.loads_value(typ, key, message, request)`: absent message
value yields an absent event; otherwise the same shape as `loads_key`
on `message.value`, constructing `typ(obj, req=request)` and wrapping any
failure as `ValueDecodeError`.  There is no absent-type passthrough: with
a present value and `typ = None` the attribute access
`typ._options.serializer` raises, and that failure is wrapped too. -/
def Registry.loads_value (d : Deps) (r : Registry)
    (typ : Option ModelType) (_key : Val) (message : Message)
    (request : Nat) :
    Except PyError Val × Registry :=
  match message.value with
  | Val.vnone => (Except.ok Val.vnone, r)
  | v =>
    match typ with
    | Option.none =>
      (wrapValue (Except.error (PyError.attributeError
        "'NoneType' object has no attribute '_options'")), r)
    | some t =>
      let serializer := codecOr t.serializer r.value_serializer
      match r._get_serializer serializer with
      | (Except.error _, r') =>
        (wrapValue (d.codec_loads serializer v >>=
           fun obj => t.construct obj (some request)), r')
      | (Except.ok ser, r') =>
        (wrapValue (d.ser_loads ser v >>=
           fun obj => t.construct obj (some request)), r')

/-- `Registry.dumps_key(topic, key, serializer)`: a Model key replaces the
passed serializer with its own declared one; with a truthy serializer name
the external serializer is tried first, falling back on `KeyError` to the
model's self-encoding for models and to the stateless codec table
otherwise; with no serializer name an absent key stays absent and any
other key is coerced with `want_bytes`. -/
def Registry.dumps_key (d : Deps) (r : Registry)
    (topic : String) (key : Val) (serializer : CodecArg) :
    Except PyError Val × Registry :=
  let ser₀ := match key with
    | Val.vmodel s _ _ => s
    | _ => serializer
  if ser₀.truthy then
    match r._get_serializer ser₀ with
    | (Except.error _, r') =>
      if key.isModel then (modelDumps d key, r')
      else (d.codec_dumps ser₀ key, r')
    | (Except.ok ser, r') => (d.ser_dumps_key ser topic key, r')
  else
    match key with
    | Val.vnone => (Except.ok Val.vnone, r)
    | k => (Except.ok (want_bytes k), r)

/-- `Registry.dumps_value(topic, value, serializer)`: identical shape to
`dumps_key`, except that with no serializer name the value is returned
as-is with no coercion (even when absent). -/
def Registry.dumps_value (d : Deps) (r : Registry)
    (topic : String) (value : Val) (serializer : CodecArg) :
    Except PyError Val × Registry :=
  let ser₀ := match value with
    | Val.vmodel s _ _ => s
    | _ => serializer
  if ser₀.truthy then
    match r._get_serializer ser₀ with
    | (Except.error _, r') =>
      if value.isModel then (modelDumps d value, r')
      else (d.codec_dumps ser₀ value, r')
    | (Except.ok ser, r') => (d.ser_dumps_value ser topic value, r')
  else (Except.ok value, r)

/-- Whether an `Except` is the error case. -/
def Except.isErr {ε α : Type} : Except ε α → Bool
  | Except.error _ => true
  | Except.ok _ => false

/-! Sample external collaborators and registry states, used to exercise the
theorems on concrete inputs. -/

/-- A simple codec world: every codec decodes and encodes as the identity,
models self-encode to their payload, external serializer instances decode
everything to `vnone`. -/
def deps0 : Deps :=
  { codec_loads := fun _ v => Except.ok v
  , codec_dumps := fun _ v => Except.ok v
  , self_encode := fun _ v => v
  , ser_loads := fun _ _ => Except.ok Val.vnone
  , ser_dumps_key := fun _ _ _ => Except.ok Val.vnone
  , ser_dumps_value := fun _ _ _ => Except.ok Val.vnone }

/-- A codec world whose stateless codec table always fails. -/
def depsFail : Deps :=
  { deps0 with codec_loads := fun _ _ => Except.error (PyError.codecError "boom") }

/-- A fresh registry with no key serializer and the default json value
serializer, as built by `Registry()`. -/
def r0 : Registry := Registry.init CodecArg.none (CodecArg.str "json")

/-- A model type with no declared serializer whose constructor never
fails. -/
def t0 : ModelType :=
  { serializer := CodecArg.none, fails_on := fun _ => Option.none }

/-- A model type declaring the serializer name "myser" (known to neither
the codec table nor the external-serializer table) whose constructor never
fails. -/
def t1 : ModelType :=
  { serializer := CodecArg.str "myser", fails_on := fun _ => Option.none }

/-! Helper lemmas shared by the claim theorems. -/

theorem wrapKey_error_shape (x : Except PyError Val) (e : PyError)
    (h : wrapKey x = Except.error e) : ∃ m, e = PyError.keyDecodeError m := by
  cases x with
  | error u =>
    simp only [wrapKey] at h
    exact ⟨pyStr u, (Except.error.inj h).symm⟩
  | ok v => simp [wrapKey] at h

theorem wrapValue_error_shape (x : Except PyError Val) (e : PyError)
    (h : wrapValue x = Except.error e) : ∃ m, e = PyError.valueDecodeError m := by
  cases x with
  | error u =>
    simp only [wrapValue] at h
    exact ⟨pyStr u, (Except.error.inj h).symm⟩
  | ok v => simp [wrapValue] at h

/-! Claim theorems. -/

/-- C1: for a name resolvable via the external-serializer constructor
table and not yet cached, the first `_get_serializer` call constructs
exactly one instance (minting the registry's next construction token),
stores it in the override cache, and bumps the construction counter; a
repeated call on the resulting state returns the identical instance with
the state unchanged, and in general any call on a state whose cache binds
the name returns exactly the cached instance without constructing
anything — hence at most one instance per distinct name per registry. -/
theorem get_serializer_memoizes (r : Registry) (n : String) (p : String)
    (htab : lookupStr n override_classes = some p)
    (hmiss : lookupStr n r._override = Option.none) :
    r._get_serializer (CodecArg.str n) =
      (Except.ok (⟨n, r.next_uid⟩ : AsyncSer),
       { r with _override := (n, (⟨n, r.next_uid⟩ : AsyncSer)) :: r._override
              , next_uid := r.next_uid + 1 }) ∧
    ({ r with _override := (n, (⟨n, r.next_uid⟩ : AsyncSer)) :: r._override
            , next_uid := r.next_uid + 1
       : Registry }._get_serializer (CodecArg.str n) =
      (Except.ok (⟨n, r.next_uid⟩ : AsyncSer),
       { r with _override := (n, (⟨n, r.next_uid⟩ : AsyncSer)) :: r._override
              , next_uid := r.next_uid + 1 })) ∧
    (∀ (s : Registry) (inst : AsyncSer),
       lookupStr n s._override = some inst →
       s._get_serializer (CodecArg.str n) = (Except.ok inst, s)) := by
  refine ⟨?_, ?_, ?_⟩
  · simp [Registry._get_serializer, hmiss, htab]
  · simp [Registry._get_serializer, lookupStr]
  · intro s inst h
    simp [Registry._get_serializer, h]

/-- C1 witness: instantiated at the reserved name "avro" on a fresh
registry. -/
theorem get_serializer_memoizes_witness :
    r0._get_serializer (CodecArg.str "avro") =
      (Except.ok (⟨"avro", 0⟩ : AsyncSer),
       { r0 with _override := [("avro", (⟨"avro", 0⟩ : AsyncSer))]
               , next_uid := 1 }) :=
  (get_serializer_memoizes r0 "avro"
    "faust.serializers.avro.faust:AvroSerializer" (by decide) (by decide)).1

theorem bind_ok_val (a : Val) (f : Val → Except PyError Val) :
    (Except.ok a >>= f : Except PyError Val) = f a := rfl

theorem bind_error_val (e : PyError) (f : Val → Except PyError Val) :
    (Except.error e >>= f : Except PyError Val) = Except.error e := rfl

/-- C9: `_get_serializer` signals a lookup-miss exactly when the name is
not a string or is a string bound in neither the override cache nor the
constructor table; a miss leaves the override cache unchanged; and on a
miss for the effective name the decode caller falls back to the stateless
codec table, with the registry state (hence the cache) unchanged by the
whole call. -/
theorem get_serializer_miss_fallback (r : Registry) (name : CodecArg) :
    ((r._get_serializer name).1.isErr = true ↔
       (∀ s, name ≠ CodecArg.str s) ∨
       (∃ s, name = CodecArg.str s ∧
          lookupStr s r._override = Option.none ∧
          lookupStr s override_classes = Option.none)) ∧
    ((r._get_serializer name).1.isErr = true →
       (r._get_serializer name).2 = r) ∧
    (∀ (d : Deps) (t : ModelType) (k : Val),
       k ≠ Val.vnone →
       (r._get_serializer (codecOr t.serializer r.key_serializer)).1.isErr
         = true →
       (Registry.loads_key d r (some t) k).2 = r ∧
       ∀ (obj mv : Val),
         d.codec_loads (codecOr t.serializer r.key_serializer) k
           = Except.ok obj →
         t.construct obj Option.none = Except.ok mv →
         (Registry.loads_key d r (some t) k).1 = Except.ok mv) := by
  refine ⟨?_, ?_, ?_⟩
  · cases name with
    | str s =>
      cases hov : lookupStr s r._override with
      | some ser => simp [Registry._get_serializer, hov, Except.isErr]
      | none =>
        cases htab : lookupStr s override_classes with
        | some p => simp [Registry._get_serializer, hov, htab, Except.isErr]
        | none => simp [Registry._get_serializer, hov, htab, Except.isErr]
    | none => simp [Registry._get_serializer, Except.isErr]
    | codec c => simp [Registry._get_serializer, Except.isErr]
  · cases name with
    | str s =>
      cases hov : lookupStr s r._override with
      | some ser => simp [Registry._get_serializer, hov, Except.isErr]
      | none =>
        cases htab : lookupStr s override_classes with
        | some p => simp [Registry._get_serializer, hov, htab, Except.isErr]
        | none => simp [Registry._get_serializer, hov, htab]
    | none => simp [Registry._get_serializer]
    | codec c => simp [Registry._get_serializer]
  · intro d t k hk hmiss
    rcases hres : r._get_serializer (codecOr t.serializer r.key_serializer)
      with ⟨res, r'⟩
    cases res with
    | ok ser => rw [hres] at hmiss; simp [Except.isErr] at hmiss
    | error e =>
      have hr' : r' = r := by
        have := hres ▸ rfl
          (a := (r._get_serializer (codecOr t.serializer r.key_serializer)).2)
        cases name' : codecOr t.serializer r.key_serializer with
        | str s =>
          cases hov : lookupStr s r._override with
          | some ser =>
            rw [name'] at hres
            simp [Registry._get_serializer, hov] at hres
          | none =>
            cases htab : lookupStr s override_classes with
            | some p =>
              rw [name'] at hres
              simp [Registry._get_serializer, hov, htab] at hres
            | none =>
              rw [name'] at hres
              simp [Registry._get_serializer, hov, htab] at hres
              exact hres.2.symm
        | none =>
          rw [name'] at hres
          simp [Registry._get_serializer] at hres
          exact hres.2.symm
        | codec c =>
          rw [name'] at hres
          simp [Registry._get_serializer] at hres
          exact hres.2.symm
      subst hr'
      constructor
      · cases k with
        | vnone => exact absurd rfl hk
        | vbytes b => simp [Registry.loads_key, hres]
        | vdict dd => simp [Registry.loads_key, hres]
        | vmodel s pl rq => simp [Registry.loads_key, hres]
      · intro obj mv hdec hc
        cases k with
        | vnone => exact absurd rfl hk
        | vbytes b =>
          simp [Registry.loads_key, hres, hdec, hc, wrapKey, bind_ok_val]
        | vdict dd =>
          simp [Registry.loads_key, hres, hdec, hc, wrapKey, bind_ok_val]
        | vmodel s pl rq =>
          simp [Registry.loads_key, hres, hdec, hc, wrapKey, bind_ok_val]

/-- C9 witness: with no key serializer configured the effective name
`None` misses, and `loads_key` on a fresh registry decodes through the
stateless codec table, leaving the cache untouched. -/
theorem get_serializer_miss_fallback_witness :
    (Registry.loads_key deps0 r0 (some t0) (Val.vbytes "k")).2 = r0 ∧
    (Registry.loads_key deps0 r0 (some t0) (Val.vbytes "k")).1 =
      Except.ok (Val.vmodel CodecArg.none (Val.vbytes "k") Option.none) :=
  have h := (get_serializer_miss_fallback r0 CodecArg.none).2.2 deps0 t0
    (Val.vbytes "k") (by decide) (by decide)
  ⟨h.1, h.2 (Val.vbytes "k")
    (Val.vmodel CodecArg.none (Val.vbytes "k") Option.none) rfl rfl⟩

/-- Step lemma: `loads_key` on a present key and a present type unfolds to
the resolution-and-wrap pipeline. -/
theorem loads_key_eq (d : Deps) (r : Registry) (t : ModelType) (k : Val)
    (hk : k ≠ Val.vnone) :
    Registry.loads_key d r (some t) k =
      (match r._get_serializer (codecOr t.serializer r.key_serializer) with
       | (Except.error _, r') =>
         (wrapKey (d.codec_loads (codecOr t.serializer r.key_serializer) k >>=
            fun obj => t.construct obj Option.none), r')
       | (Except.ok ser, r') =>
         (wrapKey (d.ser_loads ser k >>=
            fun obj => t.construct obj Option.none), r')) := by
  cases k with
  | vnone => exact absurd rfl hk
  | vbytes b => rfl
  | vdict dd => rfl
  | vmodel s pl rq => rfl

/-- Step lemma: `loads_value` on a present value and a present type
unfolds to the resolution-and-wrap pipeline. -/
theorem loads_value_eq (d : Deps) (r : Registry) (t : ModelType)
    (k v : Val) (req : Nat) (hv : v ≠ Val.vnone) :
    Registry.loads_value d r (some t) k ⟨v⟩ req =
      (match r._get_serializer (codecOr t.serializer r.value_serializer) with
       | (Except.error _, r') =>
         (wrapValue
            (d.codec_loads (codecOr t.serializer r.value_serializer) v >>=
               fun obj => t.construct obj (some req)), r')
       | (Except.ok ser, r') =>
         (wrapValue (d.ser_loads ser v >>=
            fun obj => t.construct obj (some req)), r')) := by
  cases v with
  | vnone => exact absurd rfl hv
  | vbytes b => rfl
  | vdict dd => rfl
  | vmodel s pl rq => rfl

/-- Step lemma: `loads_value` on a present value with an absent type
wraps the attribute-access failure. -/
theorem loads_value_none_typ_eq (d : Deps) (r : Registry)
    (k v : Val) (req : Nat) (hv : v ≠ Val.vnone) :
    Registry.loads_value d r Option.none k ⟨v⟩ req =
      (wrapValue (Except.error (PyError.attributeError
         "'NoneType' object has no attribute '_options'")), r) := by
  cases v with
  | vnone => exact absurd rfl hv
  | vbytes b => rfl
  | vdict dd => rfl
  | vmodel s pl rq => rfl

/-- C2: every failure inside the key-decode path surfaces as
`KeyDecodeError` and every failure inside the value-decode path surfaces
as `ValueDecodeError` — never the raw underlying exception — and on the
stateless path both a codec failure and a model construction failure are
wrapped carrying `str` of the underlying exception. -/
theorem loads_errors_normalized (d : Deps) (r : Registry)
    (typ : Option ModelType) (key k : Val) (msg : Message) (req : Nat) :
    (∀ e, (Registry.loads_key d r typ key).1 = Except.error e →
       ∃ m, e = PyError.keyDecodeError m) ∧
    (∀ e, (Registry.loads_value d r typ k msg req).1 = Except.error e →
       ∃ m, e = PyError.valueDecodeError m) ∧
    (∀ t u, typ = some t → key ≠ Val.vnone →
       d.codec_loads (codecOr t.serializer r.key_serializer) key
         = Except.error u →
       (r._get_serializer (codecOr t.serializer r.key_serializer)).1.isErr
         = true →
       (Registry.loads_key d r typ key).1 =
         Except.error (PyError.keyDecodeError (pyStr u))) ∧
    (∀ t obj u, typ = some t → key ≠ Val.vnone →
       d.codec_loads (codecOr t.serializer r.key_serializer) key
         = Except.ok obj →
       t.construct obj Option.none = Except.error u →
       (r._get_serializer (codecOr t.serializer r.key_serializer)).1.isErr
         = true →
       (Registry.loads_key d r typ key).1 =
         Except.error (PyError.keyDecodeError (pyStr u))) := by
  refine ⟨?_, ?_, ?_, ?_⟩
  · intro e he
    by_cases hk : key = Val.vnone
    · subst hk; simp [Registry.loads_key] at he
    · cases typ with
      | none =>
        cases key with
        | vnone => exact absurd rfl hk
        | vbytes b => simp [Registry.loads_key] at he
        | vdict dd => simp [Registry.loads_key] at he
        | vmodel s pl rq => simp [Registry.loads_key] at he
      | some t =>
        rw [loads_key_eq d r t key hk] at he
        rcases hres : r._get_serializer (codecOr t.serializer r.key_serializer)
          with ⟨res, r'⟩
        rw [hres] at he
        cases res with
        | error u => exact wrapKey_error_shape _ e he
        | ok ser => exact wrapKey_error_shape _ e he
  · intro e he
    rcases msg with ⟨v⟩
    by_cases hv : v = Val.vnone
    · subst hv; simp [Registry.loads_value] at he
    · cases typ with
      | none =>
        rw [loads_value_none_typ_eq d r k v req hv] at he
        have he' : wrapValue (Except.error (PyError.attributeError
            "'NoneType' object has no attribute '_options'"))
            = Except.error e := he
        exact wrapValue_error_shape _ e he'
      | some t =>
        rw [loads_value_eq d r t k v req hv] at he
        rcases hres :
          r._get_serializer (codecOr t.serializer r.value_serializer)
          with ⟨res, r'⟩
        rw [hres] at he
        cases res with
        | error u => exact wrapValue_error_shape _ e he
        | ok ser => exact wrapValue_error_shape _ e he
  · intro t u htyp hk hdec hmiss
    subst htyp
    rw [loads_key_eq d r t key hk]
    rcases hres : r._get_serializer (codecOr t.serializer r.key_serializer)
      with ⟨res, r'⟩
    cases res with
    | ok ser => rw [hres] at hmiss; simp [Except.isErr] at hmiss
    | error e0 => simp [hdec, wrapKey, bind_error_val]
  · intro t obj u htyp hk hdec hc hmiss
    subst htyp
    rw [loads_key_eq d r t key hk]
    rcases hres : r._get_serializer (codecOr t.serializer r.key_serializer)
      with ⟨res, r'⟩
    cases res with
    | ok ser => rw [hres] at hmiss; simp [Except.isErr] at hmiss
    | error e0 => simp [hdec, hc, wrapKey, bind_ok_val]

/-- C2 witness: a codec table that always raises makes `loads_key` on a
fresh registry surface `KeyDecodeError` carrying the codec failure's
description. -/
theorem loads_errors_normalized_witness :
    (Registry.loads_key depsFail r0 (some t0) (Val.vbytes "k")).1 =
      Except.error (PyError.keyDecodeError "boom") :=
  (loads_errors_normalized depsFail r0 (some t0) (Val.vbytes "k")
      (Val.vbytes "k") ⟨Val.vnone⟩ 0).2.2.1 t0 (PyError.codecError "boom")
    rfl (by decide) rfl (by decide)

/-- C3: when the type declares no serializer, a present key is decoded
with the registry's configured default key serializer through the
stateless codec table (the effective name misses the external table) and
the result is a type instance wrapping the decoded value; and when the
type does declare a serializer, the configured default is irrelevant: the
call's result does not depend on `key_serializer` at all. -/
theorem loads_key_default_and_precedence (d : Deps) (r : Registry)
    (t : ModelType) (key obj mv : Val)
    (hnd : t.serializer = CodecArg.none)
    (hk : key ≠ Val.vnone)
    (hmiss : (r._get_serializer r.key_serializer).1.isErr = true)
    (hdec : d.codec_loads r.key_serializer key = Except.ok obj)
    (hc : t.construct obj Option.none = Except.ok mv) :
    ((Registry.loads_key d r (some t) key).1 = Except.ok mv ∧
     mv = Val.vmodel CodecArg.none obj Option.none) ∧
    (∀ (t' : ModelType) (k' : Val) (c : CodecArg),
       t'.serializer.truthy = true →
       (Registry.loads_key d { r with key_serializer := c } (some t') k').1 =
         (Registry.loads_key d r (some t') k').1) := by
  constructor
  · have heff : codecOr t.serializer r.key_serializer = r.key_serializer := by
      rw [hnd]; rfl
    have hmv : mv = Val.vmodel t.serializer obj Option.none := by
      rw [ModelType.construct] at hc
      cases hfo : t.fails_on obj with
      | some e => rw [hfo] at hc; exact absurd hc (by simp)
      | none =>
        rw [hfo] at hc
        exact (Except.ok.inj hc).symm
    constructor
    · rw [loads_key_eq d r t key hk, heff]
      rcases hres : r._get_serializer r.key_serializer with ⟨res, r'⟩
      cases res with
      | ok ser => rw [hres] at hmiss; simp [Except.isErr] at hmiss
      | error e0 => simp [hdec, hc, wrapKey, bind_ok_val]
    · rw [hmv, hnd]
  · intro t' k' c htruthy
    by_cases hk' : k' = Val.vnone
    · subst hk'; rfl
    · have heff : ∀ b, codecOr t'.serializer b = t'.serializer := by
        intro b; rw [codecOr, htruthy]; simp
      rw [loads_key_eq d { r with key_serializer := c } t' k' hk',
          loads_key_eq d r t' k' hk', heff, heff]
      have hgs : ({ r with key_serializer := c } : Registry)._get_serializer
          t'.serializer =
          ((r._get_serializer t'.serializer).1,
           { (r._get_serializer t'.serializer).2 with key_serializer := c }) := by
        cases hn : t'.serializer with
        | str s =>
          cases hov : lookupStr s r._override with
          | some ser => simp [Registry._get_serializer, hov]
          | none =>
            cases htab : lookupStr s override_classes with
            | some p => simp [Registry._get_serializer, hov, htab]
            | none => simp [Registry._get_serializer, hov, htab]
        | none => simp [Registry._get_serializer]
        | codec cc => simp [Registry._get_serializer]
      rw [hgs]
      rcases hres : r._get_serializer t'.serializer with ⟨res, r2⟩
      cases res with
      | error e0 => rfl
      | ok ser => rfl

/-- C3 witness: a fresh registry whose default key serializer is the
codec-table name "raw" decodes a key for a type with no declared
serializer into a wrapped instance. -/
theorem loads_key_default_and_precedence_witness :
    (Registry.loads_key deps0
        (Registry.init (CodecArg.str "raw") (CodecArg.str "json"))
        (some t0) (Val.vbytes "k")).1 =
      Except.ok (Val.vmodel CodecArg.none (Val.vbytes "k") Option.none) :=
  ((loads_key_default_and_precedence deps0
      (Registry.init (CodecArg.str "raw") (CodecArg.str "json")) t0
      (Val.vbytes "k") (Val.vbytes "k")
      (Val.vmodel CodecArg.none (Val.vbytes "k") Option.none)
      rfl (by decide) (by decide) rfl rfl).1).1

/-- C5: absence propagates without error and without touching the
registry state — an absent key decodes to the absent key, an absent type
passes the raw key through unchanged, and a message with an absent value
decodes to the absent event. -/
theorem absence_propagation (d : Deps) (r : Registry)
    (typ typ' : Option ModelType) (k k' : Val) (req : Nat) :
    Registry.loads_key d r typ Val.vnone = (Except.ok Val.vnone, r) ∧
    Registry.loads_key d r Option.none k = (Except.ok k, r) ∧
    Registry.loads_value d r typ' k' ⟨Val.vnone⟩ req =
      (Except.ok Val.vnone, r) := by
  refine ⟨?_, ?_, ?_⟩
  · cases typ with
    | none => rfl
    | some t => rfl
  · cases k with
    | vnone => rfl
    | vbytes b => rfl
    | vdict dd => rfl
    | vmodel s pl rq => rfl
  · cases typ' with
    | none => rfl
    | some t => rfl

/-- Step lemma: `dumps_value` on a non-model value with a falsy serializer
argument is the identity on the value and on the registry. -/
theorem dumps_value_untyped_eq (d : Deps) (r : Registry) (topic : String)
    (v : Val) (ser : CodecArg) (hm : v.isModel = false)
    (hs : ser.truthy = false) :
    Registry.dumps_value d r topic v ser = (Except.ok v, r) := by
  cases v with
  | vnone => simp [Registry.dumps_value, hs]
  | vbytes b => simp [Registry.dumps_value, hs]
  | vdict dd => simp [Registry.dumps_value, hs]
  | vmodel s pl rq => simp [Val.isModel] at hm

/-- C6: an untyped (non-model) value with no serializer override is
returned by `dumps_value` unchanged — regardless of the registry's
configured default value serializer — and in particular the dict
`{"a": 1}` on topic "topic1" comes back as the dict itself, not as
bytes. -/
theorem dumps_value_untyped_passthrough (d : Deps) (r : Registry)
    (topic : String) (v : Val) (hm : v.isModel = false) :
    Registry.dumps_value d r topic v CodecArg.none = (Except.ok v, r) ∧
    Registry.dumps_value d r "topic1" (Val.vdict [("a", 1)]) CodecArg.none =
      (Except.ok (Val.vdict [("a", 1)]), r) ∧
    (∀ b : String,
       (Registry.dumps_value d r "topic1" (Val.vdict [("a", 1)])
           CodecArg.none).1 ≠ Except.ok (Val.vbytes b)) := by
  refine ⟨dumps_value_untyped_eq d r topic v CodecArg.none hm rfl,
          dumps_value_untyped_eq d r "topic1" (Val.vdict [("a", 1)])
            CodecArg.none rfl rfl, ?_⟩
  intro b hne
  rw [dumps_value_untyped_eq d r "topic1" (Val.vdict [("a", 1)])
    CodecArg.none rfl rfl] at hne
  exact Val.noConfusion (Except.ok.inj hne)

/-- C6 witness: instantiated at the untyped dict on a fresh registry whose
default value serializer is "json". -/
theorem dumps_value_untyped_passthrough_witness :
    Registry.dumps_value deps0 r0 "topic1" (Val.vdict [("a", 1)])
        CodecArg.none = (Except.ok (Val.vdict [("a", 1)]), r0) :=
  (dumps_value_untyped_passthrough deps0 r0 "topic1"
    (Val.vdict [("a", 1)]) rfl).2.1

/-- C7: a model instance declaring a serializer name known to neither the
override cache nor the external-serializer constructor table is encoded by
both `dumps_key` and `dumps_value` as its own self-encoding — no error is
raised and the stateless codec table is not consulted (the codec table's
behaviour is universally quantified and absent from the result). -/
theorem dumps_model_self_encoding_fallback (d : Deps) (r : Registry)
    (topic : String) (s : String) (x : Val) (rq : Option Nat)
    (o : CodecArg)
    (hs : s ≠ "")
    (htab : lookupStr s override_classes = Option.none)
    (hcache : lookupStr s r._override = Option.none) :
    (Registry.dumps_key d r topic (Val.vmodel (CodecArg.str s) x rq) o).1 =
      Except.ok (d.self_encode (CodecArg.str s) x) ∧
    (Registry.dumps_value d r topic (Val.vmodel (CodecArg.str s) x rq) o).1 =
      Except.ok (d.self_encode (CodecArg.str s) x) := by
  have htr : (CodecArg.str s).truthy = true := by
    simp [CodecArg.truthy, hs]
  have hmiss : r._get_serializer (CodecArg.str s) =
      (Except.error (PyError.keyError (CodecArg.str s)), r) := by
    simp [Registry._get_serializer, hcache, htab]
  constructor
  · simp [Registry.dumps_key, htr, hmiss, Val.isModel, modelDumps]
  · simp [Registry.dumps_value, htr, hmiss, Val.isModel, modelDumps]

/-- C7 witness: a model declaring the unknown serializer name "myser"
self-encodes (in `deps0`, to its payload) through both encode entry
points on a fresh registry. -/
theorem dumps_model_self_encoding_fallback_witness :
    (Registry.dumps_key deps0 r0 "t"
        (Val.vmodel (CodecArg.str "myser") (Val.vbytes "p") Option.none)
        CodecArg.none).1 = Except.ok (Val.vbytes "p") ∧
    (Registry.dumps_value deps0 r0 "t"
        (Val.vmodel (CodecArg.str "myser") (Val.vbytes "p") Option.none)
        CodecArg.none).1 = Except.ok (Val.vbytes "p") :=
  dumps_model_self_encoding_fallback deps0 r0 "t" "myser"
    (Val.vbytes "p") Option.none CodecArg.none (by decide) (by decide)
    (by decide)

/-- C8: for a model-typed key or value the declared serializer replaces
the passed-in override unconditionally, so the override argument never
influences the result or the resulting registry state of `dumps_key` and
`dumps_value`. -/
theorem dumps_model_ignores_override (d : Deps) (r : Registry)
    (topic : String) (s : CodecArg) (x : Val) (rq : Option Nat)
    (o₁ o₂ : CodecArg) :
    Registry.dumps_key d r topic (Val.vmodel s x rq) o₁ =
      Registry.dumps_key d r topic (Val.vmodel s x rq) o₂ ∧
    Registry.dumps_value d r topic (Val.vmodel s x rq) o₁ =
      Registry.dumps_value d r topic (Val.vmodel s x rq) o₂ := by
  constructor <;> rfl

/-- C4: round-trip for a model type whose declared serializer resolves to
no external serializer — encoding `T(x)` yields the model's self-encoded
bytes, and decoding a message carrying those bytes under the hypothesis
that the codec table inverts them reconstructs `T(x, req=req)`. -/
theorem dumps_loads_value_roundtrip (d : Deps) (r : Registry)
    (t : ModelType) (topic : String) (s bs : String) (x key : Val)
    (req : Nat)
    (hts : t.serializer = CodecArg.str s)
    (hs : s ≠ "")
    (htab : lookupStr s override_classes = Option.none)
    (hcache : lookupStr s r._override = Option.none)
    (henc : d.self_encode (CodecArg.str s) x = Val.vbytes bs)
    (hload : d.codec_loads (CodecArg.str s) (Val.vbytes bs) = Except.ok x)
    (hok : t.fails_on x = Option.none) :
    (Registry.dumps_value d r topic
        (Val.vmodel (CodecArg.str s) x Option.none) CodecArg.none).1 =
      Except.ok (Val.vbytes bs) ∧
    (Registry.loads_value d r (some t) key ⟨Val.vbytes bs⟩ req).1 =
      Except.ok (Val.vmodel (CodecArg.str s) x (some req)) := by
  have htr : (CodecArg.str s).truthy = true := by
    simp [CodecArg.truthy, hs]
  have hmiss : r._get_serializer (CodecArg.str s) =
      (Except.error (PyError.keyError (CodecArg.str s)), r) := by
    simp [Registry._get_serializer, hcache, htab]
  constructor
  · simp [Registry.dumps_value, htr, hmiss, Val.isModel, modelDumps, henc]
  · have hv : (Val.vbytes bs) ≠ Val.vnone := fun h => Val.noConfusion h
    rw [loads_value_eq d r t key (Val.vbytes bs) req hv]
    have heff : codecOr t.serializer r.value_serializer = CodecArg.str s := by
      rw [hts, codecOr, htr]; simp
    rw [heff, hmiss]
    simp [hload, wrapValue, bind_ok_val, ModelType.construct, hok, hts]

/-- C4 witness: in `deps0` (identity codecs) the model with serializer
"myser" and payload `vbytes "p"` round-trips through
`dumps_value`/`loads_value` on a fresh registry, reattaching the
request. -/
theorem dumps_loads_value_roundtrip_witness :
    (Registry.dumps_value deps0 r0 "topic1"
        (Val.vmodel (CodecArg.str "myser") (Val.vbytes "p") Option.none)
        CodecArg.none).1 = Except.ok (Val.vbytes "p") ∧
    (Registry.loads_value deps0 r0 (some t1) Val.vnone ⟨Val.vbytes "p"⟩
        7).1 =
      Except.ok (Val.vmodel (CodecArg.str "myser") (Val.vbytes "p")
        (some 7)) :=
  dumps_loads_value_roundtrip deps0 r0 t1 "topic1" "myser" "p"
    (Val.vbytes "p") Val.vnone 7 rfl (by decide) (by decide) (by decide)
    rfl rfl rfl

/-- C10 counterexample: with a present message value and an absent type,
`loads_value` does not pass the raw value through — it raises
`ValueDecodeError` (wrapping the attribute access on the absent type),
unlike `loads_key`, which does pass the key through when its type is
absent. -/
theorem loads_value_no_type_passthrough_cex :
    (Registry.loads_value deps0 r0 Option.none Val.vnone
        ⟨Val.vbytes "abc"⟩ 0).1 =
      Except.error (PyError.valueDecodeError
        "'NoneType' object has no attribute '_options'") ∧
    (Registry.loads_value deps0 r0 Option.none Val.vnone
        ⟨Val.vbytes "abc"⟩ 0).1 ≠ Except.ok (Val.vbytes "abc") := by
  constructor
  · rfl
  · intro h
    have h' : (Except.error (PyError.valueDecodeError
        "'NoneType' object has no attribute '_options'") :
        Except PyError Val) = Except.ok (Val.vbytes "abc") := h
    exact Except.noConfusion h'

/-- C10 amended: `loads_value` has no absent-type passthrough — with a
present value and an absent type it surfaces `ValueDecodeError`; the
no-op passthrough on the value side applies only to an absent value,
which decodes to the absent event. -/
theorem loads_value_no_type_raises (d : Deps) (r : Registry)
    (k v : Val) (req : Nat) (hv : v ≠ Val.vnone) :
    (∃ m, (Registry.loads_value d r Option.none k ⟨v⟩ req).1 =
       Except.error (PyError.valueDecodeError m)) ∧
    Registry.loads_value d r Option.none k ⟨Val.vnone⟩ req =
      (Except.ok Val.vnone, r) := by
  constructor
  · refine ⟨"'NoneType' object has no attribute '_options'", ?_⟩
    rw [loads_value_none_typ_eq d r k v req hv]
    rfl
  · rfl

/-- C10 amended witness: instantiated at a present byte value on a fresh
registry. -/
theorem loads_value_no_type_raises_witness :
    (∃ m, (Registry.loads_value deps0 r0 Option.none Val.vnone
        ⟨Val.vbytes "xyz"⟩ 3).1 =
       Except.error (PyError.valueDecodeError m)) ∧
    Registry.loads_value deps0 r0 Option.none Val.vnone ⟨Val.vnone⟩ 3 =
      (Except.ok Val.vnone, r0) :=
  loads_value_no_type_raises deps0 r0 Val.vnone (Val.vbytes "xyz") 3
    (by decide)
